import Mathlib

/-!
Shallow embedding of the epidermis simulation core
(`src/epidermis_proj.h` of dinikap/epidermis_proj).

The embedded program is the cell lineage state machine and division
protocol: the `MyCell` agent data (fields `can_divide_`, `cell_type_`,
plus the framework-provided position and diameter), the three biology
modules `StemCell`, `TransitAmplifying` and `DifferentiatedCell` with
their `Run` steps, and the bulk creation routine `MyCellCreator`.

Floating-point doubles are embedded as rationals (the program only
compares them against integer thresholds), the C++ `int` cell type as
`Int`.  The BioDynaMo framework (`biodynamo.h`) is external to the
repository; the parts of it this core touches (the `Divide` primitive,
the container and RNG interfaces) are modelled from the specification
of those collaborators, as noted on each definition.
-/

/-- A 3D position, `std::array<double, 3>` in the source. -/
structure Vec3 where
  x : ℚ
  y : ℚ
  z : ℚ
deriving DecidableEq, Repr

/-- The `MyCell` agent: base-class position and diameter, together with
the extension fields `can_divide_` and `cell_type_` declared in
`BDM_SIM_OBJECT(MyCell, Cell)` (header lines 23-60). -/
structure MyCell where
  position : Vec3
  diameter : ℚ
  cell_type : Int
  can_divide : Bool
deriving DecidableEq, Repr

/-- The daughter produced by `cell->Divide()` as seen by this core.

The division-event constructor of `MyCellExt` (header lines 40-43)
assigns only `can_divide_[kIdx] = mother->can_divide_[mother->kIdx]`.
The geometric base state is produced by `Base(event, mother)` inside the
external framework; it is modelled from the spec: the daughter
"inherits geometric placement and base state from mother via a shallow
construction rule" (spec section 4.3), so position and diameter are copied
from the mother.  The constructor never assigns the daughter's
`cell_type_`; the value the framework leaves in that freshly created
slot is not determined by the repository's code, so it is taken as an
explicit parameter `d0`. -/
def divisionDaughter (mother : MyCell) (d0 : Int) : MyCell :=
  { position := mother.position
    diameter := mother.diameter
    cell_type := d0
    can_divide := mother.can_divide }

/-- `StemCell::Run` (header lines 104-119).  `cell->Divide()` is invoked
unconditionally first; the branches then customize the daughter or
deactivate the mother.  The result is the mother's post-call state
paired with the daughter created by the call (`some` because `Divide`
is reached on every path). -/
def StemCell.Run (cell : MyCell) (d0 : Int) : MyCell × Option MyCell :=
  let daughter := divisionDaughter cell d0
  if cell.diameter < 5 ∧ cell.cell_type = 1 then
    (cell, some { daughter with cell_type := 1, can_divide := true })
  else if cell.diameter < 8 ∧ cell.cell_type = 1 then
    (cell, some { daughter with cell_type := 2, can_divide := true })
  else
    ({ cell with can_divide := false }, some daughter)

/-- `TransitAmplifying::Run` (header lines 131-146), same shape as
`StemCell.Run` with type guard 2 and thresholds 8 and 10. -/
def TransitAmplifying.Run (cell : MyCell) (d0 : Int) : MyCell × Option MyCell :=
  let daughter := divisionDaughter cell d0
  if cell.diameter < 8 ∧ cell.cell_type = 2 then
    (cell, some { daughter with cell_type := 2, can_divide := true })
  else if cell.diameter < 10 ∧ cell.cell_type = 2 then
    (cell, some { daughter with cell_type := 3, can_divide := true })
  else
    ({ cell with can_divide := false }, some daughter)

/-- `DifferentiatedCell::Run` (header lines 158-165): no `Divide` call,
so the daughter component is always `none`. -/
def DifferentiatedCell.Run (cell : MyCell) : MyCell × Option MyCell :=
  if cell.diameter > 10 then
    ({ cell with cell_type := 3 }, none)
  else
    (cell, none)

/-- Modelled from the spec: the population container interface consumed
by this core (spec section 6: append, reserve, commit; section 4.4: "Agents
are accumulated and committed as a batch at the end ... intermediate
agents are not guaranteed visible ... until the batch commit
completes").  `agents` holds the committed, visible population;
`pending` holds objects pushed but not yet committed. -/
structure Container where
  agents : List MyCell
  pending : List MyCell
deriving DecidableEq, Repr

/-- `container->reserve(n)`: capacity hint, no observable content. -/
def Container.reserve (c : Container) (_num_cells : Int) : Container := c

/-- `container->push_back(obj)`: accumulate one object, not yet visible. -/
def Container.push_back (c : Container) (obj : MyCell) : Container :=
  { c with pending := c.pending ++ [obj] }

/-- `container->Commit()`: make all accumulated objects visible as one
batch. -/
def Container.Commit (c : Container) : Container :=
  { agents := c.agents ++ c.pending, pending := [] }

/-- The creation loop of `MyCellCreator` (header lines 84-91).  The RNG
is modelled from the spec (section 6: "a uniform random-number source
providing Uniform(min, max) -> float") as a function `random` of the
call index and the bounds; iteration `i` issues calls `2*i` (for x) and
`2*i+1` (for y), matching the two `random->Uniform(min, max)` draws per
loop body, and fixes `z = 0`.  `fuel` counts the remaining iterations of
`for (int i = 0; i < num_cells; i++)`. -/
def creatorLoop (random : Nat → ℚ → ℚ → ℚ) (min max : ℚ)
    (cell_builder : Vec3 → MyCell) : Nat → Nat → Container → Container
  | _, 0, c => c
  | i, fuel + 1, c =>
    let x := random (2 * i) min max
    let y := random (2 * i + 1) min max
    let z : ℚ := 0
    let new_simulation_object := cell_builder ⟨x, y, z⟩
    creatorLoop random min max cell_builder (i + 1) fuel
      (c.push_back new_simulation_object)

/-- `MyCellCreator` (header lines 72-93): reserve, create `num_cells`
objects at random x, y and fixed z = 0, then `Commit` once at the end.
A negative `num_cells` runs the loop zero times. -/
def MyCellCreator (min max : ℚ) (num_cells : Int)
    (random : Nat → ℚ → ℚ → ℚ) (cell_builder : Vec3 → MyCell)
    (rm : Container) : Container :=
  Container.Commit
    (creatorLoop random min max cell_builder 0 num_cells.toNat
      (rm.reserve num_cells))

/-- The `construct_stem` builder from `Simulate` (header lines 200-206):
a cell at the given position with diameter 2 and cell type 1.  The
builder never assigns `can_divide_`; the default-constructed value the
framework leaves there is not determined by the repository's code, so it
is taken as a parameter `b0`. -/
def construct_stem (b0 : Bool) (position : Vec3) : MyCell :=
  { position := position
    diameter := 2
    cell_type := 1
    can_divide := b0 }

/-- The empty, committed population container. -/
def Container.empty : Container := { agents := [], pending := [] }

/-- The list of objects created by the loop of `MyCellCreator` when
iterations `i, i+1, ...` run for `fuel` steps (proof artifact mirroring
`creatorLoop`). -/
def seededList (random : Nat → ℚ → ℚ → ℚ) (min max : ℚ)
    (cell_builder : Vec3 → MyCell) : Nat → Nat → List MyCell
  | _, 0 => []
  | i, fuel + 1 =>
    cell_builder ⟨random (2 * i) min max, random (2 * i + 1) min max, 0⟩ ::
      seededList random min max cell_builder (i + 1) fuel

/-- A Stem mother at the deactivation threshold: type 1, diameter 8,
still divisible. -/
def stemMotherEight : MyCell := ⟨⟨0, 0, 0⟩, 8, 1, true⟩

/-- A Stem cell that has already been deactivated: type 1, diameter 4,
`can_divide` false. -/
def inactiveStem : MyCell := ⟨⟨0, 0, 0⟩, 4, 1, false⟩

/-- A TransitAmplifying cell that has already been deactivated: type 2,
diameter 4, `can_divide` false. -/
def inactiveTA : MyCell := ⟨⟨0, 0, 0⟩, 4, 2, false⟩

/-- A TransitAmplifying mother at the deactivation threshold: type 2,
diameter 10, still divisible. -/
def taMotherTen : MyCell := ⟨⟨0, 0, 0⟩, 10, 2, true⟩

lemma creatorLoop_pending (random : Nat → ℚ → ℚ → ℚ) (min max : ℚ)
    (cell_builder : Vec3 → MyCell) :
    ∀ (fuel i : Nat) (c : Container),
      creatorLoop random min max cell_builder i fuel c =
        { c with pending :=
            c.pending ++ seededList random min max cell_builder i fuel } := by
  intro fuel
  induction fuel with
  | zero => intro i c; simp [creatorLoop, seededList]
  | succ k ih =>
    intro i c
    simp [creatorLoop, seededList, ih (i + 1), Container.push_back]

lemma seededList_length (random : Nat → ℚ → ℚ → ℚ) (min max : ℚ)
    (cell_builder : Vec3 → MyCell) :
    ∀ (fuel i : Nat),
      (seededList random min max cell_builder i fuel).length = fuel := by
  intro fuel
  induction fuel with
  | zero => intro i; rfl
  | succ k ih => intro i; simp [seededList, ih (i + 1)]

lemma seededList_mem (random : Nat → ℚ → ℚ → ℚ) (min max : ℚ)
    (cell_builder : Vec3 → MyCell) :
    ∀ (fuel i : Nat) (a : MyCell),
      a ∈ seededList random min max cell_builder i fuel →
      ∃ n : Nat, a = cell_builder
        ⟨random (2 * n) min max, random (2 * n + 1) min max, 0⟩ := by
  intro fuel
  induction fuel with
  | zero => intro i a ha; simp [seededList] at ha
  | succ k ih =>
    intro i a ha
    simp only [seededList, List.mem_cons] at ha
    rcases ha with h | h
    · exact ⟨i, h⟩
    · exact ih (i + 1) a h

/-- C1: the claim says a Stem mother with type 1, diameter >= 8 and
`can_divide` true produces no daughter.  Evaluating the code at the
failing input (type 1, diameter 8, `can_divide` true): `Divide` is
invoked before any check, so a daughter is produced, while the mother's
`can_divide` does become false. -/
theorem stem_run_diameter_eight_still_divides :
    (StemCell.Run stemMotherEight 0).2.isSome = true ∧
    (StemCell.Run stemMotherEight 0).1.can_divide = false := by
  decide

/-- C2: the claim says that once `can_divide` is false, no subsequent
`Run` on that agent produces a daughter.  Evaluating the code at the
failing inputs: neither `StemCell::Run` nor `TransitAmplifying::Run`
ever reads `can_divide`, and both call `Divide` unconditionally, so a
deactivated Stem or TA cell still produces a daughter on every call. -/
theorem deactivated_cells_still_divide :
    (StemCell.Run inactiveStem 0).2.isSome = true ∧
    (TransitAmplifying.Run inactiveTA 0).2.isSome = true := by
  decide

/-- C3: a Stem agent (type 1, `can_divide` true) with diameter < 5
divides into exactly one daughter of type Stem with `can_divide` true
and the mother is left unchanged (so its `can_divide` remains true);
with 5 <= diameter < 8 it divides into exactly one daughter of type
TransitAmplifying with `can_divide` true. -/
theorem stem_run_division_bands (cell : MyCell) (d0 : Int)
    (htype : cell.cell_type = 1) (hcd : cell.can_divide = true) :
    (cell.diameter < 5 →
      StemCell.Run cell d0 =
        (cell, some { divisionDaughter cell d0 with
                        cell_type := 1, can_divide := true }) ∧
      (StemCell.Run cell d0).1.can_divide = true) ∧
    (5 ≤ cell.diameter → cell.diameter < 8 →
      StemCell.Run cell d0 =
        (cell, some { divisionDaughter cell d0 with
                        cell_type := 2, can_divide := true })) := by
  constructor
  · intro h5
    have key : StemCell.Run cell d0 =
        (cell, some { divisionDaughter cell d0 with
                        cell_type := 1, can_divide := true }) := by
      simp only [StemCell.Run]
      rw [if_pos ⟨h5, htype⟩]
    exact ⟨key, by rw [key]; exact hcd⟩
  · intro h5 h8
    simp only [StemCell.Run]
    rw [if_neg (fun h => absurd h.1 (not_lt.mpr h5)), if_pos ⟨h8, htype⟩]

/-- Witness for C3 at concrete inputs: a type-1 mother of diameter 4
self-renews into a Stem daughter, a type-1 mother of diameter 6
produces a TransitAmplifying daughter. -/
theorem stem_run_division_bands_witness :
    (StemCell.Run ⟨⟨0, 0, 0⟩, 4, 1, true⟩ 0 =
      (⟨⟨0, 0, 0⟩, 4, 1, true⟩,
        some { divisionDaughter ⟨⟨0, 0, 0⟩, 4, 1, true⟩ 0 with
                 cell_type := 1, can_divide := true }) ∧
      (StemCell.Run ⟨⟨0, 0, 0⟩, 4, 1, true⟩ 0).1.can_divide = true) ∧
    StemCell.Run ⟨⟨0, 0, 0⟩, 6, 1, true⟩ 0 =
      (⟨⟨0, 0, 0⟩, 6, 1, true⟩,
        some { divisionDaughter ⟨⟨0, 0, 0⟩, 6, 1, true⟩ 0 with
                 cell_type := 2, can_divide := true }) :=
  ⟨(stem_run_division_bands ⟨⟨0, 0, 0⟩, 4, 1, true⟩ 0 rfl rfl).1
      (by norm_num),
   (stem_run_division_bands ⟨⟨0, 0, 0⟩, 6, 1, true⟩ 0 rfl rfl).2
      (by norm_num) (by norm_num)⟩

/-- C4: the claim says a TA mother with type 2, diameter >= 10 and
`can_divide` true produces no daughter.  Evaluating the code at the
failing input (type 2, diameter 10, `can_divide` true): `Divide` is
invoked before any check, so a daughter is produced, while the mother's
`can_divide` does become false. -/
theorem ta_run_diameter_ten_still_divides :
    (TransitAmplifying.Run taMotherTen 0).2.isSome = true ∧
    (TransitAmplifying.Run taMotherTen 0).1.can_divide = false := by
  decide

/-- C5: `DifferentiatedCell::Run` never produces a daughter, for any
agent; if the diameter exceeds 10 the cell type becomes 3; the call
never changes the diameter, and running twice leaves the state obtained
after the first call. -/
theorem differentiated_run_no_daughter_idempotent (cell : MyCell) :
    (DifferentiatedCell.Run cell).2 = none ∧
    (cell.diameter > 10 →
      (DifferentiatedCell.Run cell).1.cell_type = 3) ∧
    (DifferentiatedCell.Run cell).1.diameter = cell.diameter ∧
    (DifferentiatedCell.Run (DifferentiatedCell.Run cell).1).1 =
      (DifferentiatedCell.Run cell).1 := by
  by_cases h : cell.diameter > 10
  · simp [DifferentiatedCell.Run, h]
  · simp [DifferentiatedCell.Run, h]

/-- Witness for C5 at a concrete input: a cell of diameter 11. -/
theorem differentiated_run_no_daughter_idempotent_witness :
    (DifferentiatedCell.Run ⟨⟨0, 0, 0⟩, 11, 1, true⟩).2 = none ∧
    (DifferentiatedCell.Run ⟨⟨0, 0, 0⟩, 11, 1, true⟩).1.cell_type = 3 ∧
    (DifferentiatedCell.Run
        (DifferentiatedCell.Run ⟨⟨0, 0, 0⟩, 11, 1, true⟩).1).1 =
      (DifferentiatedCell.Run ⟨⟨0, 0, 0⟩, 11, 1, true⟩).1 := by
  obtain ⟨h1, h2, _, h4⟩ :=
    differentiated_run_no_daughter_idempotent ⟨⟨0, 0, 0⟩, 11, 1, true⟩
  exact ⟨h1, h2 (by norm_num), h4⟩

/-- C6 counterexample: two Stem mothers of type 1 and diameter 8 that
differ only in their pre-division `can_divide` value produce different
daughters — in the deactivation branch the daughter's inherited
`can_divide` is never overwritten, so it is observable. -/
theorem inherited_flag_observable_counterexample :
    (StemCell.Run ⟨⟨0, 0, 0⟩, 8, 1, true⟩ 0).2 ≠
      (StemCell.Run ⟨⟨0, 0, 0⟩, 8, 1, false⟩ 0).2 := by
  decide

/-- C6 amended: the daughter's constructor-inherited `can_divide` is
overwritten by the invoking behavior variant exactly when the mother's
type matches the variant and its diameter is below the variant's upper
division threshold (8 for Stem, 10 for TA) — there two mothers
differing only in `can_divide` yield the same daughter; on every other
input the daughter keeps the mother's pre-division `can_divide`. -/
theorem inherited_flag_masked_only_in_division_bands (m : MyCell)
    (b1 b2 : Bool) (d0 : Int) :
    (m.cell_type = 1 → m.diameter < 8 →
      (StemCell.Run { m with can_divide := b1 } d0).2 =
        (StemCell.Run { m with can_divide := b2 } d0).2) ∧
    (m.cell_type = 2 → m.diameter < 10 →
      (TransitAmplifying.Run { m with can_divide := b1 } d0).2 =
        (TransitAmplifying.Run { m with can_divide := b2 } d0).2) ∧
    (¬ (m.cell_type = 1 ∧ m.diameter < 8) →
      ((StemCell.Run m d0).2.map MyCell.can_divide) =
        some m.can_divide) ∧
    (¬ (m.cell_type = 2 ∧ m.diameter < 10) →
      ((TransitAmplifying.Run m d0).2.map MyCell.can_divide) =
        some m.can_divide) := by
  refine ⟨?_, ?_, ?_, ?_⟩
  · intro ht h8
    by_cases h5 : m.diameter < 5
    · simp [StemCell.Run, divisionDaughter, h5, ht]
    · simp [StemCell.Run, divisionDaughter, h5, h8, ht]
  · intro ht h10
    by_cases h8 : m.diameter < 8
    · simp [TransitAmplifying.Run, divisionDaughter, h8, ht]
    · simp [TransitAmplifying.Run, divisionDaughter, h8, h10, ht]
  · intro hband
    have h5 : ¬ (m.diameter < 5 ∧ m.cell_type = 1) := by
      rintro ⟨hd, ht⟩
      exact hband ⟨ht, lt_trans hd (by norm_num)⟩
    have h8 : ¬ (m.diameter < 8 ∧ m.cell_type = 1) := by
      rintro ⟨hd, ht⟩
      exact hband ⟨ht, hd⟩
    simp [StemCell.Run, divisionDaughter, h5, h8]
  · intro hband
    have h8 : ¬ (m.diameter < 8 ∧ m.cell_type = 2) := by
      rintro ⟨hd, ht⟩
      exact hband ⟨ht, lt_trans hd (by norm_num)⟩
    have h10 : ¬ (m.diameter < 10 ∧ m.cell_type = 2) := by
      rintro ⟨hd, ht⟩
      exact hband ⟨ht, hd⟩
    simp [TransitAmplifying.Run, divisionDaughter, h8, h10]

/-- Witness for the amended C6 at concrete inputs: inside the Stem
division band the inherited flag is masked, outside it (diameter 8) the
daughter keeps the mother's value. -/
theorem inherited_flag_masked_only_in_division_bands_witness :
    (StemCell.Run { (⟨⟨0, 0, 0⟩, 4, 1, true⟩ : MyCell) with
        can_divide := true } 0).2 =
      (StemCell.Run { (⟨⟨0, 0, 0⟩, 4, 1, true⟩ : MyCell) with
        can_divide := false } 0).2 ∧
    ((StemCell.Run ⟨⟨0, 0, 0⟩, 8, 1, true⟩ 0).2.map MyCell.can_divide) =
      some (⟨⟨0, 0, 0⟩, 8, 1, true⟩ : MyCell).can_divide :=
  ⟨(inherited_flag_masked_only_in_division_bands
      ⟨⟨0, 0, 0⟩, 4, 1, true⟩ true false 0).1 rfl (by norm_num),
   (inherited_flag_masked_only_in_division_bands
      ⟨⟨0, 0, 0⟩, 8, 1, true⟩ true false 0).2.2.1
      (by rintro ⟨_, h⟩; revert h; decide)⟩

/-- C7: the claim says cell type never regresses from mother to
daughter.  Evaluating the code at the failing input (type-1 mother of
diameter 8): the deactivation branch still divides, and the daughter's
`cell_type` is the division-constructor value (never assigned by the
repository's code, here the default 0), which is below the mother's
type 1. -/
theorem else_branch_daughter_type_regresses :
    (StemCell.Run stemMotherEight 0).2 =
      some (divisionDaughter stemMotherEight 0) ∧
    (divisionDaughter stemMotherEight 0).cell_type <
      stemMotherEight.cell_type := by
  decide

/-- C9: `StemCell::Run` and `TransitAmplifying::Run` write nothing on
the mother beyond `can_divide`: her `cell_type`, `diameter` and
`position` are unchanged on every path. -/
theorem run_preserves_mother_frame (cell : MyCell) (d0 : Int) :
    ((StemCell.Run cell d0).1.cell_type = cell.cell_type ∧
     (StemCell.Run cell d0).1.diameter = cell.diameter ∧
     (StemCell.Run cell d0).1.position = cell.position) ∧
    ((TransitAmplifying.Run cell d0).1.cell_type = cell.cell_type ∧
     (TransitAmplifying.Run cell d0).1.diameter = cell.diameter ∧
     (TransitAmplifying.Run cell d0).1.position = cell.position) := by
  constructor
  · unfold StemCell.Run
    split_ifs <;> simp
  · unfold TransitAmplifying.Run
    split_ifs <;> simp

/-- C10: on a mother whose `cell_type` is not the invoking variant's
type, both `StemCell::Run` and `TransitAmplifying::Run` fall through to
the deactivation branch for every diameter — yet a daughter has already
been produced, keeping the constructor-inherited `cell_type` and
`can_divide`, and the mother's `can_divide` is set to false. -/
theorem mismatched_type_still_divides (cell : MyCell) (d0 : Int) :
    (cell.cell_type ≠ 1 →
      StemCell.Run cell d0 =
        ({ cell with can_divide := false },
         some (divisionDaughter cell d0))) ∧
    (cell.cell_type ≠ 2 →
      TransitAmplifying.Run cell d0 =
        ({ cell with can_divide := false },
         some (divisionDaughter cell d0))) := by
  constructor
  · intro ht
    simp [StemCell.Run, ht]
  · intro ht
    simp [TransitAmplifying.Run, ht]

/-- Witness for C10 at a concrete input: type 7 matches neither
variant, so both runs divide and deactivate the mother. -/
theorem mismatched_type_still_divides_witness :
    StemCell.Run ⟨⟨0, 0, 0⟩, 3, 7, true⟩ 0 =
      ({ (⟨⟨0, 0, 0⟩, 3, 7, true⟩ : MyCell) with can_divide := false },
       some (divisionDaughter ⟨⟨0, 0, 0⟩, 3, 7, true⟩ 0)) ∧
    TransitAmplifying.Run ⟨⟨0, 0, 0⟩, 3, 7, true⟩ 0 =
      ({ (⟨⟨0, 0, 0⟩, 3, 7, true⟩ : MyCell) with can_divide := false },
       some (divisionDaughter ⟨⟨0, 0, 0⟩, 3, 7, true⟩ 0)) :=
  ⟨(mismatched_type_still_divides ⟨⟨0, 0, 0⟩, 3, 7, true⟩ 0).1
      (by decide),
   (mismatched_type_still_divides ⟨⟨0, 0, 0⟩, 3, 7, true⟩ 0).2
      (by decide)⟩

/-- C8: for every count, and every RNG respecting the Uniform contract
(each draw lies in `[min, max]`) and every builder that places the cell
at the position it is handed, `MyCellCreator` run on the empty
container produces exactly `count` agents, each with x and y in
`[min, max]` and z = 0, all visible as one committed batch (nothing
left pending); count 0 yields an empty committed population. -/
theorem my_cell_creator_seeds_population (min max : ℚ) (count : Int)
    (random : Nat → ℚ → ℚ → ℚ) (cell_builder : Vec3 → MyCell)
    (hrand : ∀ n, min ≤ random n min max ∧ random n min max ≤ max)
    (hbuild : ∀ p, (cell_builder p).position = p) :
    (MyCellCreator min max count random cell_builder
        Container.empty).agents.length = count.toNat ∧
    (MyCellCreator min max count random cell_builder
        Container.empty).pending = [] ∧
    ∀ a ∈ (MyCellCreator min max count random cell_builder
        Container.empty).agents,
      min ≤ a.position.x ∧ a.position.x ≤ max ∧
      min ≤ a.position.y ∧ a.position.y ≤ max ∧ a.position.z = 0 := by
  have hloop := creatorLoop_pending random min max cell_builder
    count.toNat 0 Container.empty
  have hcc : MyCellCreator min max count random cell_builder
      Container.empty =
      { agents := seededList random min max cell_builder 0 count.toNat,
        pending := [] } := by
    show Container.Commit (creatorLoop random min max cell_builder 0
      count.toNat Container.empty) = _
    rw [hloop]
    rfl
  refine ⟨?_, ?_, ?_⟩
  · rw [hcc]
    exact seededList_length random min max cell_builder count.toNat 0
  · rw [hcc]
  · intro a ha
    rw [hcc] at ha
    obtain ⟨n, rfl⟩ := seededList_mem random min max cell_builder
      count.toNat 0 a ha
    rw [hbuild]
    exact ⟨(hrand (2 * n)).1, (hrand (2 * n)).2,
      (hrand (2 * n + 1)).1, (hrand (2 * n + 1)).2, rfl⟩

/-- Witness for C8 at concrete inputs: 200 Stem cells seeded in
`[0, 250]` with a constant in-range RNG, and the empty seeding with
count 0. -/
theorem my_cell_creator_seeds_population_witness :
    (MyCellCreator 0 250 200 (fun _ _ _ => 0) (construct_stem true)
        Container.empty).agents.length = (200 : Int).toNat ∧
    (∀ a ∈ (MyCellCreator 0 250 200 (fun _ _ _ => 0)
        (construct_stem true) Container.empty).agents,
      0 ≤ a.position.x ∧ a.position.x ≤ 250 ∧
      0 ≤ a.position.y ∧ a.position.y ≤ 250 ∧ a.position.z = 0) ∧
    (MyCellCreator 0 250 0 (fun _ _ _ => 0) (construct_stem true)
        Container.empty).agents.length = (0 : Int).toNat ∧
    (MyCellCreator 0 250 0 (fun _ _ _ => 0) (construct_stem true)
        Container.empty).pending = [] := by
  obtain ⟨h1, _, h3⟩ :=
    my_cell_creator_seeds_population 0 250 200 (fun _ _ _ => 0)
      (construct_stem true)
      (fun n => ⟨le_refl 0, by norm_num⟩) (fun p => rfl)
  obtain ⟨g1, g2, _⟩ :=
    my_cell_creator_seeds_population 0 250 0 (fun _ _ _ => 0)
      (construct_stem true)
      (fun n => ⟨le_refl 0, by norm_num⟩) (fun p => rfl)
  exact ⟨h1, h3, g1, g2⟩
